import Mathlib

/-!
Shallow embedding of the realtime session-registry / notification subsystem of
`BACKEND/server.js` (SafeStreet road-damage detection backend).

The embedded pieces are:
 * `validateUserType` — the identity classifier (server.js lines 234-251);
 * the `userSockets` map (a JS `Map` from userId to socket id, line 231),
   modelled as an association list with JS `Map` semantics (`mapSet`,
   `mapGet`, `mapDelete`);
 * the Socket.IO connection lifecycle handlers (lines 253-351): connect,
   `authenticate`, `reconnect`, the 30-second auth timeout callback, and
   `disconnect`, combined into a step function over traces of events;
 * the notification fan-out loops and HTTP trigger endpoints that read the
   registry: the `/predict` admin loop (lines 464-482), the `/save-canvas`
   admin loop (lines 801-812), `PATCH /api/feedbacks/:id` (lines 859-898)
   and `POST /api/user-notification` (lines 988-1026).

Identity strings are handled through `String.data : List Char` so that all
operations are structurally recursive and kernel-evaluable.
-/

namespace SafeStreet

/-! ## Identity classifier (server.js 234-251) -/

/-- `leadsWith tag cs` is true when `cs` begins with `tag`
(JS `String.prototype.startsWith`). -/
def leadsWith : List Char → List Char → Bool
  | [], _ => true
  | _ :: _, [] => false
  | a :: as, b :: bs => a == b && leadsWith as bs

/-- The fixed admin tag `"admin_"` (server.js line 238). -/
def adminTag : List Char := "admin_".data

/-- JS `userId.includes('_')`: the string contains the separator character. -/
def hasSep : List Char → Bool
  | [] => false
  | c :: cs => c == '_' || hasSep cs

/-- One character of the case-insensitive regex class `[0-9a-f]` used in
`/^[0-9a-f]{24}$/i` (server.js line 239). -/
def isHexCharCI (c : Char) : Bool :=
  (48 ≤ c.toNat && c.toNat ≤ 57) ||
  (97 ≤ c.toNat && c.toNat ≤ 102) ||
  (65 ≤ c.toNat && c.toNat ≤ 70)

/-- JS `userId.match(/^[0-9a-f]{24}$/i)`: exactly 24 hex characters. -/
def isHex24 (cs : List Char) : Bool :=
  cs.length == 24 && cs.all isHexCharCI

/-- Result shape of `validateUserType`.  When `valid` is false the source
object carries only `valid` and `message`; we fill `isAdmin := false` and
`userType := ""` for those cases. -/
structure Validation where
  valid : Bool
  isAdmin : Bool
  userType : String
  message : String
deriving DecidableEq

/-- `validateUserType` (server.js lines 234-251).  `!userId` in JS is true
for the empty string (and for an absent argument, which we also model as the
empty string). -/
def validateUserType (userId : String) : Validation :=
  if userId.data == [] then
    { valid := false, isAdmin := false, userType := "", message := "No userId provided" }
  else
    let isAdmin := leadsWith adminTag userId.data
    let isRegularUser := hasSep userId.data || isHex24 userId.data
    if !isAdmin && !isRegularUser then
      { valid := false, isAdmin := false, userType := "", message := "Invalid userId format" }
    else
      { valid := true, isAdmin := isAdmin,
        userType := if isAdmin then "admin" else "user",
        message := if isAdmin then "Valid admin user" else "Valid regular user" }

/-- Roles, for comparison with the specification text. -/
inductive Role where
  | admin : Role
  | user : Role
deriving DecidableEq

/-- Modelled from the spec: the classifier contract of section 4.2 of the
specification, rules applied in order: (1) empty/absent identity is invalid;
(2) an identity starting with the admin tag is a valid admin; (3) an identity
containing the separator or matching the 24-hex pattern is a valid user;
(4) anything else is invalid.  This definition follows the specification's
words and is compared against `validateUserType`, which is taken from the
source. -/
def classifySpec (identity : String) : Bool × Option Role :=
  if identity.data == [] then (false, none)
  else if leadsWith adminTag identity.data then (true, some Role.admin)
  else if hasSep identity.data || isHex24 identity.data then (true, some Role.user)
  else (false, none)

/-- The role encoded by a `Validation` result, as an `Option Role`. -/
def roleOf (v : Validation) : Option Role :=
  if v.valid then (if v.isAdmin then some Role.admin else some Role.user) else none

/-! ## The `userSockets` map (server.js line 231)

A JS `Map` iterated in insertion order: `set` overwrites in place when the
key is present and appends otherwise, `get` returns the stored value,
`delete` removes the entry. -/

/-- JS `Map.prototype.set`. -/
def mapSet {α : Type} (m : List (String × α)) (k : String) (v : α) :
    List (String × α) :=
  match m with
  | [] => [(k, v)]
  | (k0, v0) :: rest =>
      if k0 = k then (k, v) :: rest else (k0, v0) :: mapSet rest k v

/-- JS `Map.prototype.get` (`none` for a missing key). -/
def mapGet {α : Type} (m : List (String × α)) (k : String) : Option α :=
  match m with
  | [] => none
  | (k0, v0) :: rest => if k0 = k then some v0 else mapGet rest k

/-- JS `Map.prototype.delete`. -/
def mapDelete {α : Type} (m : List (String × α)) (k : String) :
    List (String × α) :=
  match m with
  | [] => []
  | (k0, v0) :: rest =>
      if k0 = k then rest else (k0, v0) :: mapDelete rest k

/-- The registry: userId → socket id, exactly the `userSockets` map. -/
abbrev Registry := List (String × String)

/-! ## Session lifecycle (server.js 253-351) -/

/-- The per-socket fields the handlers touch: `socket.userId`,
`socket.userType`, `socket.isAdmin`, whether the socket is still connected,
and whether the `authTimeout` timer is still pending (armed on connection,
cleared by `clearTimeout` in the authenticate handler or by firing). -/
structure SocketState where
  userId : Option String
  userType : String
  isAdmin : Bool
  connected : Bool
  timerActive : Bool
deriving DecidableEq

/-- What the server emits to clients, restricted to the fields the claims
are about. -/
inductive Emission where
  | authSuccess (toSid userId userType : String)
  | authError (toSid message : String)
  | event (toSid name : String)
deriving DecidableEq

/-- Global server state: the `userSockets` registry, the per-socket states
keyed by socket id, and the log of emissions. -/
structure ServerState where
  userSockets : Registry
  sockets : List (String × SocketState)
  emitted : List Emission
deriving DecidableEq

/-- State at process start: empty registry, no sockets. -/
def init : ServerState := { userSockets := [], sockets := [], emitted := [] }

/-- `io.on("connection")` entry (server.js 254-263): a fresh socket has no
`userId` and its 30-second auth timeout is armed. -/
def freshSocket : SocketState :=
  { userId := none, userType := "", isAdmin := false,
    connected := true, timerActive := true }

def onConnection (s : ServerState) (sid : String) : ServerState :=
  { s with sockets := mapSet s.sockets sid freshSocket }

/-- The auth timeout duration in milliseconds (server.js line 263). -/
def authTimeoutMs : Nat := 30000

/-- `socket.on("authenticate")` (server.js 266-302).  The handler first
calls `clearTimeout(authTimeout)` unconditionally, then validates; on a
valid identity it stores the registry entry, sets the socket fields and
emits `auth_success`; on an invalid identity it emits `auth_error` and
changes nothing else (the optional disconnect on line 300 is commented out
in the source). -/
def onAuthenticate (s : ServerState) (sid uid : String) : ServerState :=
  match mapGet s.sockets sid with
  | none => s
  | some sk =>
    if sk.connected then
      let sk1 : SocketState := { sk with timerActive := false }
      let v := validateUserType uid
      if v.valid then
        let sk2 : SocketState :=
          { sk1 with userId := some uid, isAdmin := v.isAdmin, userType := v.userType }
        { s with
          userSockets := mapSet s.userSockets uid sid,
          sockets := mapSet s.sockets sid sk2,
          emitted := s.emitted ++ [Emission.authSuccess sid uid v.userType] }
      else
        { s with
          sockets := mapSet s.sockets sid sk1,
          emitted := s.emitted ++ [Emission.authError sid v.message] }
    else s

/-- `socket.on("reconnect")` (server.js 305-319): if the socket already has
a `userId`, re-register it under the current socket id and re-emit
`auth_success` with the stored `userType`; otherwise do nothing. -/
def onReconnect (s : ServerState) (sid : String) : ServerState :=
  match mapGet s.sockets sid with
  | none => s
  | some sk =>
    if sk.connected then
      match sk.userId with
      | some uid =>
        { s with
          userSockets := mapSet s.userSockets uid sid,
          emitted := s.emitted ++ [Emission.authSuccess sid uid sk.userType] }
      | none => s
    else s

/-- `socket.on("disconnect")` (server.js 336-350) together with the
transport marking the socket closed: if the socket has a `userId`, the
handler deletes that key from `userSockets` unconditionally — it does not
compare the stored socket id with this socket's id. -/
def onDisconnect (s : ServerState) (sid : String) : ServerState :=
  match mapGet s.sockets sid with
  | none => s
  | some sk =>
    if sk.connected then
      let skClosed : SocketState := { sk with connected := false }
      let s1 := { s with sockets := mapSet s.sockets sid skClosed }
      match sk.userId with
      | some uid => { s1 with userSockets := mapDelete s1.userSockets uid }
      | none => s1
    else s

/-- The `authTimeout` callback firing (server.js 258-263): only a pending
timer can fire; the callback disconnects the socket when `socket.userId` is
still unset, which also runs the disconnect handler. -/
def onAuthTimeout (s : ServerState) (sid : String) : ServerState :=
  match mapGet s.sockets sid with
  | none => s
  | some sk =>
    if sk.timerActive then
      let skFired : SocketState := { sk with timerActive := false }
      let s1 := { s with sockets := mapSet s.sockets sid skFired }
      match sk.userId with
      | none => onDisconnect s1 sid
      | some _ => s1
    else s

/-- The observable events of one server run. -/
inductive Event where
  | connect (sid : String)
  | authenticate (sid uid : String)
  | reconnect (sid : String)
  | timeoutFire (sid : String)
  | disconnect (sid : String)
deriving DecidableEq

/-- One event dispatched to its handler. -/
def step (s : ServerState) : Event → ServerState
  | Event.connect sid => onConnection s sid
  | Event.authenticate sid uid => onAuthenticate s sid uid
  | Event.reconnect sid => onReconnect s sid
  | Event.timeoutFire sid => onAuthTimeout s sid
  | Event.disconnect sid => onDisconnect s sid

/-- Run a trace of events from a state. -/
def run (s : ServerState) : List Event → ServerState
  | [] => s
  | e :: tr => run (step s e) tr

/-- `true` when the trace contains an `authenticate` event for socket `sid`. -/
def hasAuthFor (sid : String) : List Event → Bool
  | [] => false
  | Event.authenticate s _ :: tr => s == sid || hasAuthFor sid tr
  | _ :: tr => hasAuthFor sid tr

/-! ## Admin fan-out loops (server.js 464-482 and 801-812)

Both loops iterate `userSockets.entries()` and emit only to entries whose
userId starts with `"admin_"`. -/

/-- The registry entries the admin fan-out loops deliver to: exactly the
entries whose key starts with the admin tag, in iteration order. -/
def allAdminsTargets : Registry → Registry
  | [] => []
  | (uid, sid) :: rest =>
      if leadsWith adminTag uid.data then (uid, sid) :: allAdminsTargets rest
      else allAdminsTargets rest

/-- The `/predict` admin loop (server.js 464-482): each admin entry receives
`new-road-entry` followed by `admin-notification`. -/
def predictAdminEmissions : Registry → List Emission
  | [] => []
  | (uid, sid) :: rest =>
      if leadsWith adminTag uid.data then
        Emission.event sid "new-road-entry" ::
          Emission.event sid "admin-notification" :: predictAdminEmissions rest
      else predictAdminEmissions rest

/-- The `/save-canvas` admin loop (server.js 801-812): each admin entry
receives `prediction-complete`. -/
def saveCanvasAdminEmissions : Registry → List Emission
  | [] => []
  | (uid, sid) :: rest =>
      if leadsWith adminTag uid.data then
        Emission.event sid "prediction-complete" :: saveCanvasAdminEmissions rest
      else saveCanvasAdminEmissions rest

/-! ## HTTP trigger endpoints feeding the dispatcher -/

/-- Outcome of one HTTP handler run: response status and body, the
notifications emitted during the request, and the registry as it stands
after the request. -/
structure HttpOutcome where
  status : Nat
  body : String
  emittedNow : List Emission
  registryAfter : Registry
deriving DecidableEq

/-- `POST /api/user-notification` (server.js 988-1026).  `dbHasUser`
abstracts the MongoDB lookup on line 998 (only consulted for a non-admin
24-hex userId).  The send itself (lines 1004-1021) looks the userId up in
`userSockets`; when connected it emits `type || 'notification'` and answers
200 `"Notification sent successfully"`; when not connected it emits nothing
and still answers 200, with body `"User not connected, notification
queued"` (no queue exists: the whole effect of the request is this
outcome). -/
def userNotificationHandler (reg : Registry) (dbHasUser : Bool)
    (userId ty : String) : HttpOutcome :=
  if userId.data == [] then
    { status := 400, body := "User ID is required", emittedNow := [], registryAfter := reg }
  else if !leadsWith adminTag userId.data && isHex24 userId.data && !dbHasUser then
    { status := 404, body := "User not found", emittedNow := [], registryAfter := reg }
  else
    match mapGet reg userId with
    | some sid =>
        { status := 200, body := "Notification sent successfully",
          emittedNow := [Emission.event sid (if ty.data == [] then "notification" else ty)],
          registryAfter := reg }
    | none =>
        { status := 200, body := "User not connected, notification queued",
          emittedNow := [], registryAfter := reg }

/-- `PATCH /api/feedbacks/:id` (server.js 859-898).  `fbFound` abstracts
`Feedback.findById`; `fbUserId` is the stored feedback's `userId` field.
After saving the status flag, the handler emits `feedback_status` to the
author's socket when one is registered; otherwise it just logs.  Either way
it answers 200 with the updated feedback record (body modelled as
`"feedback"`). -/
def feedbackPatchHandler (reg : Registry) (fbFound : Bool)
    (fbUserId : Option String) : HttpOutcome :=
  if !fbFound then
    { status := 404, body := "Feedback not found", emittedNow := [], registryAfter := reg }
  else
    match fbUserId with
    | some fuid =>
        match mapGet reg fuid with
        | some sid =>
            { status := 200, body := "feedback",
              emittedNow := [Emission.event sid "feedback_status"], registryAfter := reg }
        | none =>
            { status := 200, body := "feedback", emittedNow := [], registryAfter := reg }
    | none =>
        { status := 200, body := "feedback", emittedNow := [], registryAfter := reg }

/-- Invariant of reachable server states: every registry key passed the
classifier, every `userId` stored on a socket passed the classifier, and
the registry has pairwise-distinct keys. -/
def Inv (s : ServerState) : Prop :=
  (∀ p ∈ s.userSockets, (validateUserType p.1).valid = true) ∧
  (∀ q ∈ s.sockets, ∀ u, q.2.userId = some u → (validateUserType u).valid = true) ∧
  (s.userSockets.map Prod.fst).Nodup

/-- For a socket id that has never authenticated: if the socket exists it
has no `userId` and, while connected, its auth timer is still pending; and
its id is never a value of the registry. -/
def NoSid (sid : String) (s : ServerState) : Prop :=
  (∀ sk, mapGet s.sockets sid = some sk →
      sk.userId = none ∧ (sk.connected = true → sk.timerActive = true)) ∧
  (∀ p ∈ s.userSockets, p.2 ≠ sid)

/-! ## Witness inputs -/

def trC1 : List Event :=
  [Event.connect "S1", Event.authenticate "S1" "user_alice",
   Event.connect "S2", Event.authenticate "S2" "user_alice",
   Event.disconnect "S1"]

def sC1 : ServerState :=
  run init [Event.connect "S1", Event.authenticate "S1" "user_alice",
            Event.connect "S2", Event.authenticate "S2" "user_alice"]

def trC2 : List Event :=
  [Event.connect "S1", Event.authenticate "S1" "bob", Event.timeoutFire "S1"]

def sC2 : ServerState := run init [Event.connect "S1"]

def sC4 : ServerState :=
  run init [Event.connect "S1", Event.authenticate "S1" "user_alice",
            Event.connect "S2"]

def sC9 : ServerState :=
  run init [Event.connect "S1", Event.authenticate "S1" "user_bob"]

def regC6 : Registry := [("admin_1", "A"), ("user_b", "B")]

def trC10 : List Event := [Event.connect "S1", Event.authenticate "S1" "admin_1"]

/-! ## Lemmas about the map operations -/

theorem mapGet_set_self {α : Type} (m : List (String × α)) (k : String) (v : α) :
    mapGet (mapSet m k v) k = some v := by
  induction m with
  | nil => simp [mapSet, mapGet]
  | cons p rest ih =>
    obtain ⟨k0, v0⟩ := p
    by_cases h : k0 = k
    · simp [mapSet, mapGet, h]
    · simp [mapSet, mapGet, h, ih]

theorem mapGet_set_ne {α : Type} (m : List (String × α)) (k k' : String) (v : α)
    (h : k' ≠ k) : mapGet (mapSet m k v) k' = mapGet m k' := by
  induction m with
  | nil => simp [mapSet, mapGet, Ne.symm h]
  | cons p rest ih =>
    obtain ⟨k0, v0⟩ := p
    by_cases h0 : k0 = k
    · subst h0
      simp [mapSet, mapGet, Ne.symm h]
    · simp only [mapSet, if_neg h0]
      by_cases h1 : k0 = k'
      · simp [mapGet, h1]
      · simp [mapGet, h1, ih]

theorem mem_mapSet {α : Type} {m : List (String × α)} {k : String} {v : α}
    {p : String × α} (hp : p ∈ mapSet m k v) : p ∈ m ∨ p = (k, v) := by
  induction m with
  | nil =>
    simp [mapSet] at hp
    exact Or.inr hp
  | cons q rest ih =>
    obtain ⟨k0, v0⟩ := q
    by_cases h : k0 = k
    · simp [mapSet, h] at hp
      rcases hp with h1 | h1
      · exact Or.inr h1
      · exact Or.inl (List.mem_cons_of_mem _ h1)
    · simp only [mapSet, if_neg h, List.mem_cons] at hp
      rcases hp with h1 | h1
      · exact Or.inl (by simp [h1])
      · rcases ih h1 with h2 | h2
        · exact Or.inl (List.mem_cons_of_mem _ h2)
        · exact Or.inr h2

theorem mem_mapDelete {α : Type} {m : List (String × α)} {k : String}
    {p : String × α} (hp : p ∈ mapDelete m k) : p ∈ m := by
  induction m with
  | nil => simp [mapDelete] at hp
  | cons q rest ih =>
    obtain ⟨k0, v0⟩ := q
    by_cases h : k0 = k
    · simp only [mapDelete, if_pos h] at hp
      exact List.mem_cons_of_mem _ hp
    · simp only [mapDelete, if_neg h, List.mem_cons] at hp
      rcases hp with h1 | h1
      · exact Or.inl h1 |> List.mem_cons.mpr
      · exact List.mem_cons_of_mem _ (ih h1)

theorem mapGet_mem {α : Type} {m : List (String × α)} {k : String} {v : α}
    (h : mapGet m k = some v) : (k, v) ∈ m := by
  induction m with
  | nil => simp [mapGet] at h
  | cons q rest ih =>
    obtain ⟨k0, v0⟩ := q
    by_cases h0 : k0 = k
    · simp only [mapGet, if_pos h0, Option.some.injEq] at h
      subst h0; subst h
      exact List.mem_cons_self _ _
    · simp only [mapGet, if_neg h0] at h
      exact List.mem_cons_of_mem _ (ih h)

theorem mem_keys_mapSet {α : Type} {m : List (String × α)} {k a : String} {v : α}
    (ha : a ∈ (mapSet m k v).map Prod.fst) : a = k ∨ a ∈ m.map Prod.fst := by
  rcases List.mem_map.mp ha with ⟨p, hp, rfl⟩
  rcases mem_mapSet hp with h | h
  · exact Or.inr (List.mem_map.mpr ⟨p, h, rfl⟩)
  · subst h; exact Or.inl rfl

theorem nodupKeys_mapSet {α : Type} {m : List (String × α)} (k : String) (v : α)
    (h : (m.map Prod.fst).Nodup) : ((mapSet m k v).map Prod.fst).Nodup := by
  induction m with
  | nil => simp [mapSet]
  | cons q rest ih =>
    obtain ⟨k0, v0⟩ := q
    simp only [List.map_cons, List.nodup_cons] at h
    by_cases h0 : k0 = k
    · subst h0
      simpa [mapSet, List.nodup_cons] using h
    · simp only [mapSet, if_neg h0, List.map_cons, List.nodup_cons]
      refine ⟨fun hmem => ?_, ih h.2⟩
      rcases mem_keys_mapSet hmem with h1 | h1
      · exact h0 h1
      · exact h.1 h1

theorem nodupKeys_mapDelete {α : Type} {m : List (String × α)} (k : String)
    (h : (m.map Prod.fst).Nodup) : ((mapDelete m k).map Prod.fst).Nodup := by
  induction m with
  | nil => simp [mapDelete]
  | cons q rest ih =>
    obtain ⟨k0, v0⟩ := q
    simp only [List.map_cons, List.nodup_cons] at h
    by_cases h0 : k0 = k
    · simpa [mapDelete, if_pos h0] using h.2
    · simp only [mapDelete, if_neg h0, List.map_cons, List.nodup_cons]
      refine ⟨fun hmem => ?_, ih h.2⟩
      rcases List.mem_map.mp hmem with ⟨p, hp, rfl⟩
      exact h.1 (List.mem_map.mpr ⟨p, mem_mapDelete hp, rfl⟩)

/-! ## Branch equations for the lifecycle handlers -/

theorem mapSet_set_self {α : Type} (m : List (String × α)) (k : String) (v v2 : α) :
    mapSet (mapSet m k v) k v2 = mapSet m k v2 := by
  induction m with
  | nil => simp [mapSet]
  | cons p rest ih =>
    obtain ⟨k0, v0⟩ := p
    by_cases h : k0 = k
    · simp [mapSet, h]
    · simp [mapSet, h, ih]

theorem onAuthenticate_no_socket (s : ServerState) (sid uid : String)
    (hm : mapGet s.sockets sid = none) : onAuthenticate s sid uid = s := by
  simp [onAuthenticate, hm]

theorem onAuthenticate_closed (s : ServerState) (sid uid : String) (sk : SocketState)
    (hm : mapGet s.sockets sid = some sk) (hc : sk.connected = false) :
    onAuthenticate s sid uid = s := by
  simp [onAuthenticate, hm, hc]

theorem onAuthenticate_valid_eq (s : ServerState) (sid uid : String) (sk : SocketState)
    (hm : mapGet s.sockets sid = some sk) (hc : sk.connected = true)
    (hv : (validateUserType uid).valid = true) :
    onAuthenticate s sid uid =
      { s with
        userSockets := mapSet s.userSockets uid sid,
        sockets := mapSet s.sockets sid
          ⟨some uid, (validateUserType uid).userType, (validateUserType uid).isAdmin, true, false⟩,
        emitted := s.emitted ++ [Emission.authSuccess sid uid (validateUserType uid).userType] } := by
  simp [onAuthenticate, hm, hc, hv]

theorem onAuthenticate_invalid_eq (s : ServerState) (sid uid : String) (sk : SocketState)
    (hm : mapGet s.sockets sid = some sk) (hc : sk.connected = true)
    (hv : (validateUserType uid).valid = false) :
    onAuthenticate s sid uid =
      { s with
        sockets := mapSet s.sockets sid ⟨sk.userId, sk.userType, sk.isAdmin, true, false⟩,
        emitted := s.emitted ++ [Emission.authError sid (validateUserType uid).message] } := by
  simp [onAuthenticate, hm, hc, hv]

theorem onReconnect_no_socket (s : ServerState) (sid : String)
    (hm : mapGet s.sockets sid = none) : onReconnect s sid = s := by
  simp [onReconnect, hm]

theorem onReconnect_closed (s : ServerState) (sid : String) (sk : SocketState)
    (hm : mapGet s.sockets sid = some sk) (hc : sk.connected = false) :
    onReconnect s sid = s := by
  simp [onReconnect, hm, hc]

theorem onReconnect_anon (s : ServerState) (sid : String) (sk : SocketState)
    (hm : mapGet s.sockets sid = some sk) (hu : sk.userId = none) :
    onReconnect s sid = s := by
  cases hc : sk.connected
  · simp [onReconnect, hm, hc]
  · simp [onReconnect, hm, hc, hu]

theorem onReconnect_eq (s : ServerState) (sid uid : String) (sk : SocketState)
    (hm : mapGet s.sockets sid = some sk) (hc : sk.connected = true)
    (hu : sk.userId = some uid) :
    onReconnect s sid =
      { s with
        userSockets := mapSet s.userSockets uid sid,
        emitted := s.emitted ++ [Emission.authSuccess sid uid sk.userType] } := by
  simp [onReconnect, hm, hc, hu]

theorem onDisconnect_no_socket (s : ServerState) (sid : String)
    (hm : mapGet s.sockets sid = none) : onDisconnect s sid = s := by
  simp [onDisconnect, hm]

theorem onDisconnect_closed (s : ServerState) (sid : String) (sk : SocketState)
    (hm : mapGet s.sockets sid = some sk) (hc : sk.connected = false) :
    onDisconnect s sid = s := by
  simp [onDisconnect, hm, hc]

theorem onDisconnect_anon_eq (s : ServerState) (sid : String) (sk : SocketState)
    (hm : mapGet s.sockets sid = some sk) (hc : sk.connected = true)
    (hu : sk.userId = none) :
    onDisconnect s sid =
      { s with sockets := mapSet s.sockets sid ⟨none, sk.userType, sk.isAdmin, false, sk.timerActive⟩ } := by
  simp [onDisconnect, hm, hc, hu]

theorem onDisconnect_user_eq (s : ServerState) (sid uid : String) (sk : SocketState)
    (hm : mapGet s.sockets sid = some sk) (hc : sk.connected = true)
    (hu : sk.userId = some uid) :
    onDisconnect s sid =
      { s with
        userSockets := mapDelete s.userSockets uid,
        sockets := mapSet s.sockets sid ⟨some uid, sk.userType, sk.isAdmin, false, sk.timerActive⟩ } := by
  simp [onDisconnect, hm, hc, hu]

theorem onAuthTimeout_no_socket (s : ServerState) (sid : String)
    (hm : mapGet s.sockets sid = none) : onAuthTimeout s sid = s := by
  simp [onAuthTimeout, hm]

theorem onAuthTimeout_inactive (s : ServerState) (sid : String) (sk : SocketState)
    (hm : mapGet s.sockets sid = some sk) (ht : sk.timerActive = false) :
    onAuthTimeout s sid = s := by
  simp [onAuthTimeout, hm, ht]

theorem onAuthTimeout_authed_eq (s : ServerState) (sid uid : String) (sk : SocketState)
    (hm : mapGet s.sockets sid = some sk) (ht : sk.timerActive = true)
    (hu : sk.userId = some uid) :
    onAuthTimeout s sid =
      { s with sockets := mapSet s.sockets sid ⟨some uid, sk.userType, sk.isAdmin, sk.connected, false⟩ } := by
  simp [onAuthTimeout, hm, ht, hu]

/-- When the timer fires on a still-unauthenticated socket, the callback
disconnects it (`socket.disconnect(true)`), which also runs the disconnect
handler; the handler removes nothing from the registry because
`socket.userId` is unset. -/
theorem onAuthTimeout_fires_eq (s : ServerState) (sid : String) (sk : SocketState)
    (hm : mapGet s.sockets sid = some sk) (ht : sk.timerActive = true)
    (hu : sk.userId = none) :
    onAuthTimeout s sid =
      { s with sockets := mapSet s.sockets sid ⟨none, sk.userType, sk.isAdmin, false, false⟩ } := by
  cases hc : sk.connected
  · simp [onAuthTimeout, onDisconnect, hm, ht, hu, hc, mapGet_set_self, mapSet_set_self]
  · simp [onAuthTimeout, onDisconnect, hm, ht, hu, hc, mapGet_set_self, mapSet_set_self]

/-! ## Reachable-state invariants of the session lifecycle -/

theorem inv_mk {reg : Registry} {socks : List (String × SocketState)}
    {ems : List Emission}
    (hA : ∀ p ∈ reg, (validateUserType p.1).valid = true)
    (hB : ∀ q ∈ socks, ∀ u, q.2.userId = some u → (validateUserType u).valid = true)
    (hC : (reg.map Prod.fst).Nodup) :
    Inv { userSockets := reg, sockets := socks, emitted := ems } :=
  ⟨hA, hB, hC⟩

/-- Updating one socket preserves userId-validity of the socket table as
long as the new socket state itself stores a validated identity. -/
theorem sockValid_set {sockets : List (String × SocketState)}
    (h2 : ∀ q ∈ sockets, ∀ u, q.2.userId = some u → (validateUserType u).valid = true)
    (sid : String) (sk2 : SocketState)
    (hsk : ∀ u, sk2.userId = some u → (validateUserType u).valid = true) :
    ∀ q ∈ mapSet sockets sid sk2, ∀ u, q.2.userId = some u →
      (validateUserType u).valid = true := by
  intro q hq u hu
  rcases mem_mapSet hq with hmem | heq
  · exact h2 q hmem u hu
  · subst heq; exact hsk u hu

theorem inv_onConnection (s : ServerState) (sid : String) (h : Inv s) :
    Inv (onConnection s sid) := by
  obtain ⟨h1, h2, h3⟩ := h
  exact inv_mk h1 (sockValid_set h2 sid _ (fun u hu => by simp [freshSocket] at hu)) h3

theorem inv_onAuthenticate (s : ServerState) (sid uid : String) (h : Inv s) :
    Inv (onAuthenticate s sid uid) := by
  obtain ⟨h1, h2, h3⟩ := h
  cases hm : mapGet s.sockets sid with
  | none => rw [onAuthenticate_no_socket s sid uid hm]; exact ⟨h1, h2, h3⟩
  | some sk =>
    cases hc : sk.connected with
    | false => rw [onAuthenticate_closed s sid uid sk hm hc]; exact ⟨h1, h2, h3⟩
    | true =>
      cases hv : (validateUserType uid).valid with
      | false =>
        rw [onAuthenticate_invalid_eq s sid uid sk hm hc hv]
        refine inv_mk h1 ?_ h3
        exact sockValid_set h2 sid _ fun u hu => h2 (sid, sk) (mapGet_mem hm) u hu
      | true =>
        rw [onAuthenticate_valid_eq s sid uid sk hm hc hv]
        refine inv_mk ?_ ?_ (nodupKeys_mapSet _ _ h3)
        · intro p hp
          rcases mem_mapSet hp with hmem | heq
          · exact h1 p hmem
          · subst heq; exact hv
        · exact sockValid_set h2 sid _ fun u hu => (Option.some.inj hu) ▸ hv

theorem inv_onReconnect (s : ServerState) (sid : String) (h : Inv s) :
    Inv (onReconnect s sid) := by
  obtain ⟨h1, h2, h3⟩ := h
  cases hm : mapGet s.sockets sid with
  | none => rw [onReconnect_no_socket s sid hm]; exact ⟨h1, h2, h3⟩
  | some sk =>
    cases hc : sk.connected with
    | false => rw [onReconnect_closed s sid sk hm hc]; exact ⟨h1, h2, h3⟩
    | true =>
      cases hu : sk.userId with
      | none => rw [onReconnect_anon s sid sk hm hu]; exact ⟨h1, h2, h3⟩
      | some uid =>
        rw [onReconnect_eq s sid uid sk hm hc hu]
        refine inv_mk ?_ h2 (nodupKeys_mapSet _ _ h3)
        intro p hp
        rcases mem_mapSet hp with hmem | heq
        · exact h1 p hmem
        · subst heq
          exact h2 (sid, sk) (mapGet_mem hm) uid hu

theorem inv_onDisconnect (s : ServerState) (sid : String) (h : Inv s) :
    Inv (onDisconnect s sid) := by
  obtain ⟨h1, h2, h3⟩ := h
  cases hm : mapGet s.sockets sid with
  | none => rw [onDisconnect_no_socket s sid hm]; exact ⟨h1, h2, h3⟩
  | some sk =>
    cases hc : sk.connected with
    | false => rw [onDisconnect_closed s sid sk hm hc]; exact ⟨h1, h2, h3⟩
    | true =>
      cases hu : sk.userId with
      | none =>
        rw [onDisconnect_anon_eq s sid sk hm hc hu]
        exact inv_mk h1 (sockValid_set h2 sid _ (fun u hu2 => by simp at hu2)) h3
      | some uid =>
        rw [onDisconnect_user_eq s sid uid sk hm hc hu]
        refine inv_mk (fun p hp => h1 p (mem_mapDelete hp)) ?_ (nodupKeys_mapDelete _ h3)
        exact sockValid_set h2 sid _
          fun u hu2 => h2 (sid, sk) (mapGet_mem hm) u (hu.trans hu2)

theorem inv_onAuthTimeout (s : ServerState) (sid : String) (h : Inv s) :
    Inv (onAuthTimeout s sid) := by
  obtain ⟨h1, h2, h3⟩ := h
  cases hm : mapGet s.sockets sid with
  | none => rw [onAuthTimeout_no_socket s sid hm]; exact ⟨h1, h2, h3⟩
  | some sk =>
    cases ht : sk.timerActive with
    | false => rw [onAuthTimeout_inactive s sid sk hm ht]; exact ⟨h1, h2, h3⟩
    | true =>
      cases hu : sk.userId with
      | none =>
        rw [onAuthTimeout_fires_eq s sid sk hm ht hu]
        exact inv_mk h1 (sockValid_set h2 sid _ (fun u hu2 => by simp at hu2)) h3
      | some uid =>
        rw [onAuthTimeout_authed_eq s sid uid sk hm ht hu]
        refine inv_mk h1 ?_ h3
        exact sockValid_set h2 sid _
          fun u hu2 => h2 (sid, sk) (mapGet_mem hm) u (hu.trans hu2)

theorem inv_step (s : ServerState) (e : Event) (h : Inv s) : Inv (step s e) := by
  cases e with
  | connect sid => exact inv_onConnection s sid h
  | authenticate sid uid => exact inv_onAuthenticate s sid uid h
  | reconnect sid => exact inv_onReconnect s sid h
  | timeoutFire sid => exact inv_onAuthTimeout s sid h
  | disconnect sid => exact inv_onDisconnect s sid h

theorem inv_run (tr : List Event) (s : ServerState) (h : Inv s) : Inv (run s tr) := by
  induction tr generalizing s with
  | nil => exact h
  | cons e tr ih => exact ih (step s e) (inv_step s e h)

theorem inv_init : Inv init := by
  refine ⟨?_, ?_, ?_⟩ <;> simp [init]

/-! ## Trace helpers -/

theorem run_append (s : ServerState) (tr tr2 : List Event) :
    run s (tr ++ tr2) = run (run s tr) tr2 := by
  induction tr generalizing s with
  | nil => rfl
  | cons e tr ih => exact ih (step s e)

theorem hasAuthFor_cons_false {sid : String} {e : Event} {tr : List Event}
    (h : hasAuthFor sid (e :: tr) = false) :
    (∀ u, e ≠ Event.authenticate sid u) ∧ hasAuthFor sid tr = false := by
  cases e with
  | authenticate s0 u0 =>
    simp only [hasAuthFor, Bool.or_eq_false_iff] at h
    refine ⟨fun u2 he => ?_, h.2⟩
    injection he with h1 _
    exact ne_of_beq_false h.1 h1
  | connect s0 => exact ⟨fun u2 he => Event.noConfusion he, h⟩
  | reconnect s0 => exact ⟨fun u2 he => Event.noConfusion he, h⟩
  | timeoutFire s0 => exact ⟨fun u2 he => Event.noConfusion he, h⟩
  | disconnect s0 => exact ⟨fun u2 he => Event.noConfusion he, h⟩

theorem hasAuthFor_append (sid : String) (tr tr2 : List Event) :
    hasAuthFor sid (tr ++ tr2) = (hasAuthFor sid tr || hasAuthFor sid tr2) := by
  induction tr with
  | nil => rfl
  | cons e tr ih => cases e <;> simp [hasAuthFor, ih, Bool.or_assoc]

/-! ## Per-socket invariant for never-authenticated connections -/

theorem noSid_mk {reg : Registry} {socks : List (String × SocketState)}
    {ems : List Emission} {sid : String}
    (hA : ∀ sk, mapGet socks sid = some sk →
        sk.userId = none ∧ (sk.connected = true → sk.timerActive = true))
    (hB : ∀ p ∈ reg, p.2 ≠ sid) :
    NoSid sid { userSockets := reg, sockets := socks, emitted := ems } :=
  ⟨hA, hB⟩

theorem noSid_init (sid : String) : NoSid sid init := by
  refine ⟨?_, ?_⟩ <;> simp [init, mapGet]

theorem noSid_onConnection (sid sid2 : String) (s : ServerState)
    (h : NoSid sid s) : NoSid sid (onConnection s sid2) := by
  obtain ⟨h1, h2⟩ := h
  refine noSid_mk ?_ h2
  intro sk hm
  by_cases hs : sid = sid2
  · subst hs
    rw [mapGet_set_self] at hm
    cases hm
    exact ⟨rfl, fun _ => rfl⟩
  · rw [mapGet_set_ne _ _ _ _ hs] at hm
    exact h1 sk hm

theorem noSid_onAuthenticate (sid sid2 uid : String) (s : ServerState)
    (h : NoSid sid s) (hne : sid2 ≠ sid) :
    NoSid sid (onAuthenticate s sid2 uid) := by
  obtain ⟨h1, h2⟩ := h
  cases hm : mapGet s.sockets sid2 with
  | none => rw [onAuthenticate_no_socket s sid2 uid hm]; exact ⟨h1, h2⟩
  | some sk =>
    cases hc : sk.connected with
    | false => rw [onAuthenticate_closed s sid2 uid sk hm hc]; exact ⟨h1, h2⟩
    | true =>
      cases hv : (validateUserType uid).valid with
      | false =>
        rw [onAuthenticate_invalid_eq s sid2 uid sk hm hc hv]
        refine noSid_mk ?_ h2
        intro sk0 hm0
        rw [mapGet_set_ne _ _ _ _ (Ne.symm hne)] at hm0
        exact h1 sk0 hm0
      | true =>
        rw [onAuthenticate_valid_eq s sid2 uid sk hm hc hv]
        refine noSid_mk ?_ ?_
        · intro sk0 hm0
          rw [mapGet_set_ne _ _ _ _ (Ne.symm hne)] at hm0
          exact h1 sk0 hm0
        · intro p hp
          rcases mem_mapSet hp with hmem | heq
          · exact h2 p hmem
          · subst heq
            exact hne

theorem noSid_onReconnect (sid sid2 : String) (s : ServerState)
    (h : NoSid sid s) : NoSid sid (onReconnect s sid2) := by
  obtain ⟨h1, h2⟩ := h
  cases hm : mapGet s.sockets sid2 with
  | none => rw [onReconnect_no_socket s sid2 hm]; exact ⟨h1, h2⟩
  | some sk =>
    cases hc : sk.connected with
    | false => rw [onReconnect_closed s sid2 sk hm hc]; exact ⟨h1, h2⟩
    | true =>
      cases hu : sk.userId with
      | none => rw [onReconnect_anon s sid2 sk hm hu]; exact ⟨h1, h2⟩
      | some uid =>
        by_cases hs : sid2 = sid
        · subst hs
          exact absurd ((h1 sk hm).1) (by simp [hu])
        · rw [onReconnect_eq s sid2 uid sk hm hc hu]
          refine noSid_mk h1 ?_
          intro p hp
          rcases mem_mapSet hp with hmem | heq
          · exact h2 p hmem
          · subst heq
            exact hs

theorem noSid_onDisconnect (sid sid2 : String) (s : ServerState)
    (h : NoSid sid s) : NoSid sid (onDisconnect s sid2) := by
  obtain ⟨h1, h2⟩ := h
  cases hm : mapGet s.sockets sid2 with
  | none => rw [onDisconnect_no_socket s sid2 hm]; exact ⟨h1, h2⟩
  | some sk =>
    cases hc : sk.connected with
    | false => rw [onDisconnect_closed s sid2 sk hm hc]; exact ⟨h1, h2⟩
    | true =>
      cases hu : sk.userId with
      | none =>
        rw [onDisconnect_anon_eq s sid2 sk hm hc hu]
        refine noSid_mk ?_ h2
        intro sk0 hm0
        by_cases hs : sid = sid2
        · subst hs
          rw [mapGet_set_self] at hm0
          cases hm0
          exact ⟨rfl, fun hx => by simp at hx⟩
        · rw [mapGet_set_ne _ _ _ _ hs] at hm0
          exact h1 sk0 hm0
      | some uid =>
        rw [onDisconnect_user_eq s sid2 uid sk hm hc hu]
        refine noSid_mk ?_ (fun p hp => h2 p (mem_mapDelete hp))
        intro sk0 hm0
        by_cases hs : sid = sid2
        · subst hs
          exact absurd ((h1 sk hm).1) (by simp [hu])
        · rw [mapGet_set_ne _ _ _ _ hs] at hm0
          exact h1 sk0 hm0

theorem noSid_onAuthTimeout (sid sid2 : String) (s : ServerState)
    (h : NoSid sid s) : NoSid sid (onAuthTimeout s sid2) := by
  obtain ⟨h1, h2⟩ := h
  cases hm : mapGet s.sockets sid2 with
  | none => rw [onAuthTimeout_no_socket s sid2 hm]; exact ⟨h1, h2⟩
  | some sk =>
    cases ht : sk.timerActive with
    | false => rw [onAuthTimeout_inactive s sid2 sk hm ht]; exact ⟨h1, h2⟩
    | true =>
      cases hu : sk.userId with
      | some uid =>
        by_cases hs : sid = sid2
        · subst hs
          exact absurd ((h1 sk hm).1) (by simp [hu])
        · rw [onAuthTimeout_authed_eq s sid2 uid sk hm ht hu]
          refine noSid_mk ?_ h2
          intro sk0 hm0
          rw [mapGet_set_ne _ _ _ _ hs] at hm0
          exact h1 sk0 hm0
      | none =>
        rw [onAuthTimeout_fires_eq s sid2 sk hm ht hu]
        refine noSid_mk ?_ h2
        intro sk0 hm0
        by_cases hs : sid = sid2
        · subst hs
          rw [mapGet_set_self] at hm0
          cases hm0
          exact ⟨rfl, fun hx => by simp at hx⟩
        · rw [mapGet_set_ne _ _ _ _ hs] at hm0
          exact h1 sk0 hm0

theorem noSid_step (sid : String) (s : ServerState) (e : Event)
    (h : NoSid sid s) (he : ∀ u, e ≠ Event.authenticate sid u) :
    NoSid sid (step s e) := by
  cases e with
  | connect sid2 => exact noSid_onConnection sid sid2 s h
  | authenticate sid2 uid =>
    refine noSid_onAuthenticate sid sid2 uid s h fun hsid => ?_
    exact he uid (by rw [hsid])
  | reconnect sid2 => exact noSid_onReconnect sid sid2 s h
  | timeoutFire sid2 => exact noSid_onAuthTimeout sid sid2 s h
  | disconnect sid2 => exact noSid_onDisconnect sid sid2 s h

theorem noSid_run (sid : String) (tr : List Event) (s : ServerState)
    (h : NoSid sid s) (htr : hasAuthFor sid tr = false) :
    NoSid sid (run s tr) := by
  induction tr generalizing s with
  | nil => exact h
  | cons e tr ih =>
    obtain ⟨he, htr2⟩ := hasAuthFor_cons_false htr
    exact ih (step s e) (noSid_step sid s e h he) htr2

/-! ## Classifier facts -/

theorem valid_isAdmin_of_leadsWith (uid : String)
    (h : leadsWith adminTag uid.data = true) :
    (validateUserType uid).valid = true ∧ (validateUserType uid).isAdmin = true := by
  have hne : (uid.data == []) = false := by
    cases hd : uid.data with
    | nil => rw [hd] at h; exact absurd h (by decide)
    | cons c cs => simp
  unfold validateUserType
  simp [hne, h]

theorem leadsWith_of_isAdmin (uid : String)
    (h : (validateUserType uid).isAdmin = true) :
    leadsWith adminTag uid.data = true := by
  by_cases hA : leadsWith adminTag uid.data = true
  · exact hA
  · exfalso
    unfold validateUserType at h
    by_cases h0 : (uid.data == []) = true
    · simp [h0] at h
    · simp only [Bool.not_eq_true] at h0
      by_cases hR : (hasSep uid.data || isHex24 uid.data) = true
      · simp [h0, hA, hR] at h
      · simp only [Bool.not_eq_true] at hA hR
        simp [h0, hA, hR] at h

theorem not_leadsWith_of_user (uid : String)
    (ha : (validateUserType uid).isAdmin = false) :
    leadsWith adminTag uid.data = false := by
  by_cases hA : leadsWith adminTag uid.data = true
  · have := (valid_isAdmin_of_leadsWith uid hA).2
    rw [this] at ha
    exact absurd ha (by simp)
  · exact eq_false_of_ne_true hA

/-! ## Membership facts for the admin fan-out loops -/

theorem predict_mem_of_admin {reg : Registry} {uid sid : String}
    (hmem : (uid, sid) ∈ reg) (hA : leadsWith adminTag uid.data = true) :
    Emission.event sid "new-road-entry" ∈ predictAdminEmissions reg ∧
    Emission.event sid "admin-notification" ∈ predictAdminEmissions reg := by
  induction reg with
  | nil => cases hmem
  | cons p rest ih =>
    obtain ⟨u0, s0⟩ := p
    rcases List.mem_cons.mp hmem with heq | hmem2
    · cases heq
      simp [predictAdminEmissions, hA]
    · have hrec := ih hmem2
      by_cases hA0 : leadsWith adminTag u0.data = true
      · simp only [predictAdminEmissions, hA0, if_true, List.mem_cons]
        exact ⟨Or.inr (Or.inr hrec.1), Or.inr (Or.inr hrec.2)⟩
      · simp only [predictAdminEmissions, eq_false_of_ne_true hA0,
          Bool.false_eq_true, if_false]
        exact hrec

theorem saveCanvas_mem_of_admin {reg : Registry} {uid sid : String}
    (hmem : (uid, sid) ∈ reg) (hA : leadsWith adminTag uid.data = true) :
    Emission.event sid "prediction-complete" ∈ saveCanvasAdminEmissions reg := by
  induction reg with
  | nil => cases hmem
  | cons p rest ih =>
    obtain ⟨u0, s0⟩ := p
    rcases List.mem_cons.mp hmem with heq | hmem2
    · cases heq
      simp [saveCanvasAdminEmissions, hA]
    · have hrec := ih hmem2
      by_cases hA0 : leadsWith adminTag u0.data = true
      · simp only [saveCanvasAdminEmissions, hA0, if_true, List.mem_cons]
        exact Or.inr hrec
      · simp only [saveCanvasAdminEmissions, eq_false_of_ne_true hA0,
          Bool.false_eq_true, if_false]
        exact hrec

theorem predict_emission_source {reg : Registry} {sid n : String}
    (h : Emission.event sid n ∈ predictAdminEmissions reg) :
    ∃ uid2, (uid2, sid) ∈ reg ∧ leadsWith adminTag uid2.data = true := by
  induction reg with
  | nil => simp [predictAdminEmissions] at h
  | cons p rest ih =>
    obtain ⟨u0, s0⟩ := p
    by_cases hA0 : leadsWith adminTag u0.data = true
    · simp only [predictAdminEmissions, hA0, if_true, List.mem_cons] at h
      rcases h with h1 | h1 | h1
      · injection h1 with h2 _
        exact ⟨u0, by rw [h2]; exact List.mem_cons_self _ _, hA0⟩
      · injection h1 with h2 _
        exact ⟨u0, by rw [h2]; exact List.mem_cons_self _ _, hA0⟩
      · obtain ⟨u2, hm2, hA2⟩ := ih h1
        exact ⟨u2, List.mem_cons_of_mem _ hm2, hA2⟩
    · simp only [predictAdminEmissions, eq_false_of_ne_true hA0,
        Bool.false_eq_true, if_false] at h
      obtain ⟨u2, hm2, hA2⟩ := ih h
      exact ⟨u2, List.mem_cons_of_mem _ hm2, hA2⟩

theorem saveCanvas_emission_source {reg : Registry} {sid n : String}
    (h : Emission.event sid n ∈ saveCanvasAdminEmissions reg) :
    ∃ uid2, (uid2, sid) ∈ reg ∧ leadsWith adminTag uid2.data = true := by
  induction reg with
  | nil => simp [saveCanvasAdminEmissions] at h
  | cons p rest ih =>
    obtain ⟨u0, s0⟩ := p
    by_cases hA0 : leadsWith adminTag u0.data = true
    · simp only [saveCanvasAdminEmissions, hA0, if_true, List.mem_cons] at h
      rcases h with h1 | h1
      · injection h1 with h2 _
        exact ⟨u0, by rw [h2]; exact List.mem_cons_self _ _, hA0⟩
      · obtain ⟨u2, hm2, hA2⟩ := ih h1
        exact ⟨u2, List.mem_cons_of_mem _ hm2, hA2⟩
    · simp only [saveCanvasAdminEmissions, eq_false_of_ne_true hA0,
        Bool.false_eq_true, if_false] at h
      obtain ⟨u2, hm2, hA2⟩ := ih h
      exact ⟨u2, List.mem_cons_of_mem _ hm2, hA2⟩

theorem targets_mem_iff {reg : Registry} {uid sid : String} :
    (uid, sid) ∈ allAdminsTargets reg ↔
      ((uid, sid) ∈ reg ∧ leadsWith adminTag uid.data = true) := by
  induction reg with
  | nil => simp [allAdminsTargets]
  | cons p rest ih =>
    obtain ⟨u0, s0⟩ := p
    by_cases hA0 : leadsWith adminTag u0.data = true
    · simp only [allAdminsTargets, hA0, if_true]
      constructor
      · intro hmem
        rcases List.mem_cons.mp hmem with heq | h2
        · cases heq
          exact ⟨List.mem_cons_self _ _, hA0⟩
        · obtain ⟨hm2, hA2⟩ := ih.mp h2
          exact ⟨List.mem_cons_of_mem _ hm2, hA2⟩
      · rintro ⟨hmem, hA⟩
        rcases List.mem_cons.mp hmem with heq | h2
        · cases heq
          exact List.mem_cons_self _ _
        · exact List.mem_cons_of_mem _ (ih.mpr ⟨h2, hA⟩)
    · simp only [allAdminsTargets, eq_false_of_ne_true hA0,
        Bool.false_eq_true, if_false]
      constructor
      · intro h2
        obtain ⟨hm2, hA2⟩ := ih.mp h2
        exact ⟨List.mem_cons_of_mem _ hm2, hA2⟩
      · rintro ⟨hmem, hA⟩
        rcases List.mem_cons.mp hmem with heq | h2
        · cases heq
          exact absurd hA hA0
        · exact ih.mpr ⟨h2, hA⟩

/-! ## Claims -/

/-- C1, counterexample: the claim says a disconnect of a stale handle leaves
the registry entry for the newer handle in place.  In the code the
disconnect handler deletes `userSockets[socket.userId]` without comparing
the stored socket id with the disconnecting socket's id, so after
handles S1 then S2 both authenticate as "user_alice", disconnecting the
stale S1 removes the entry: `lookup("user_alice")` is absent, not S2. -/
theorem c1_counterexample :
    mapGet (run init trC1).userSockets "user_alice" = none ∧
    ¬ mapGet (run init trC1).userSockets "user_alice" = some "S2" := by
  constructor
  · decide
  · decide

/-- C1 (amended): the disconnect handler removes the registry entry for the
socket's stored identity unconditionally — whatever handle the registry
currently stores for that identity — so a stale disconnect does evict a
newer session for the same identity. -/
theorem c1_disconnect_deletes_unconditionally (s : ServerState) (sid uid : String)
    (sk : SocketState) (hm : mapGet s.sockets sid = some sk)
    (hc : sk.connected = true) (hu : sk.userId = some uid) :
    (onDisconnect s sid).userSockets = mapDelete s.userSockets uid := by
  rw [onDisconnect_user_eq s sid uid sk hm hc hu]

/-- C1 witness: applying the amended theorem to the state in which S1 and
then S2 authenticated as "user_alice". -/
theorem c1_witness :
    (onDisconnect sC1 "S1").userSockets = mapDelete sC1.userSockets "user_alice" :=
  c1_disconnect_deletes_unconditionally sC1 "S1" "user_alice"
    ⟨some "user_alice", "user", false, true, false⟩ (by decide) rfl rfl

/-- C2, counterexample: the claim says the authentication deadline still
fires after an invalid attempt, force-terminating a connection that is
still unauthenticated.  In the code `clearTimeout(authTimeout)` runs before
validation, so after an invalid attempt the deadline can no longer fire:
when it would have elapsed the socket is still connected (and still
unauthenticated), not force-terminated. -/
theorem c2_counterexample :
    (mapGet (run init trC2).sockets "S1").map SocketState.connected = some true ∧
    (mapGet (run init trC2).sockets "S1").map SocketState.userId = some none ∧
    ¬ (mapGet (run init trC2).sockets "S1").map SocketState.connected = some false := by
  refine ⟨?_, ?_, ?_⟩ <;> decide

/-- C2 (amended): on an invalid identity the server emits `auth_error`, the
connection stays open and unauthenticated, no registry entry is created —
and the authenticate handler has already cancelled the deadline, so a later
firing of the auth timeout is a no-op (the connection is never
force-terminated by it). -/
theorem c2_invalid_auth_cancels_deadline (s : ServerState) (sid uid : String)
    (sk : SocketState) (hm : mapGet s.sockets sid = some sk)
    (hc : sk.connected = true) (hun : sk.userId = none)
    (hv : (validateUserType uid).valid = false) :
    (onAuthenticate s sid uid).emitted
        = s.emitted ++ [Emission.authError sid (validateUserType uid).message] ∧
    (onAuthenticate s sid uid).userSockets = s.userSockets ∧
    mapGet (onAuthenticate s sid uid).sockets sid
        = some ⟨none, sk.userType, sk.isAdmin, true, false⟩ ∧
    onAuthTimeout (onAuthenticate s sid uid) sid = onAuthenticate s sid uid := by
  have he := onAuthenticate_invalid_eq s sid uid sk hm hc hv
  refine ⟨by rw [he], by rw [he], ?_, ?_⟩
  · rw [he]
    rw [show ((({ s with
        sockets := mapSet s.sockets sid ⟨sk.userId, sk.userType, sk.isAdmin, true, false⟩,
        emitted := s.emitted ++ [Emission.authError sid (validateUserType uid).message] }
        : ServerState).sockets) = mapSet s.sockets sid ⟨sk.userId, sk.userType, sk.isAdmin, true, false⟩) from rfl]
    rw [mapGet_set_self, hun]
  · have hm2 : mapGet (onAuthenticate s sid uid).sockets sid
        = some ⟨sk.userId, sk.userType, sk.isAdmin, true, false⟩ := by
      rw [he]; exact mapGet_set_self _ _ _
    exact onAuthTimeout_inactive _ sid _ hm2 rfl

/-- C2 witness: a freshly connected socket that sends the invalid identity
"bob". -/
theorem c2_witness :
    onAuthTimeout (onAuthenticate sC2 "S1" "bob") "S1" = onAuthenticate sC2 "S1" "bob" :=
  (c2_invalid_auth_cancels_deadline sC2 "S1" "bob" freshSocket
    (by decide) rfl rfl (by decide)).2.2.2

/-- C3: `validateUserType` follows the spec's format contract — it agrees
with the rule-ordered spec classifier (`classifySpec`) on validity and
role for every identity string — and on the four concrete examples:
"admin_42" is a valid admin, the 24-hex string and "user_bob" are valid
users, and "bob" (and the empty identity) are invalid. -/
theorem c3_classifier_contract :
    (∀ uid : String,
      (validateUserType uid).valid = (classifySpec uid).1 ∧
      roleOf (validateUserType uid) = (classifySpec uid).2) ∧
    ((validateUserType "admin_42").valid = true ∧
      roleOf (validateUserType "admin_42") = some Role.admin) ∧
    ((validateUserType "5f1a2b3c4d5e6f7a8b9c0d1e").valid = true ∧
      roleOf (validateUserType "5f1a2b3c4d5e6f7a8b9c0d1e") = some Role.user) ∧
    ((validateUserType "user_bob").valid = true ∧
      roleOf (validateUserType "user_bob") = some Role.user) ∧
    (validateUserType "bob").valid = false ∧
    (validateUserType "").valid = false := by
  refine ⟨fun uid => ?_, by decide, by decide, by decide, by decide, by decide⟩
  unfold validateUserType classifySpec roleOf
  by_cases h0 : (uid.data == []) = true
  · simp [h0]
  · by_cases hA : leadsWith adminTag uid.data = true
    · simp [h0, hA]
    · by_cases hR : (hasSep uid.data || isHex24 uid.data) = true
      · simp [h0, hA, hR]
      · simp [h0, hA, hR]

/-- C4: `register` is an upsert with last-write-wins semantics — after
`register(i, h1)` then `register(i, h2)`, `lookup(i) = h2` — the registry
of every reachable state has at most one entry per identity (pairwise
distinct keys), and an overwriting authentication on a second socket does
not touch the first socket's state (in particular it does not close it). -/
theorem c4_register_upsert_lww :
    (∀ (reg : Registry) (i h1 h2 : String),
      mapGet (mapSet (mapSet reg i h1) i h2) i = some h2) ∧
    (∀ tr : List Event, ((run init tr).userSockets.map Prod.fst).Nodup) ∧
    (∀ (s : ServerState) (sid1 sid2 uid : String),
      sid1 ≠ sid2 →
      mapGet (onAuthenticate s sid2 uid).sockets sid1 = mapGet s.sockets sid1) := by
  refine ⟨?_, ?_, ?_⟩
  · intro reg i h1 h2
    rw [mapGet_set_self]
  · intro tr
    exact (inv_run tr init inv_init).2.2
  · intro s sid1 sid2 uid hne
    cases hm : mapGet s.sockets sid2 with
    | none => rw [onAuthenticate_no_socket s sid2 uid hm]
    | some sk =>
      cases hc : sk.connected with
      | false => rw [onAuthenticate_closed s sid2 uid sk hm hc]
      | true =>
        cases hv : (validateUserType uid).valid with
        | false =>
          rw [onAuthenticate_invalid_eq s sid2 uid sk hm hc hv]
          exact mapGet_set_ne _ _ _ _ hne
        | true =>
          rw [onAuthenticate_valid_eq s sid2 uid sk hm hc hv]
          exact mapGet_set_ne _ _ _ _ hne

/-- C4 witness: socket S2 re-authenticating "user_alice" leaves socket S1's
state untouched. -/
theorem c4_witness :
    mapGet (onAuthenticate sC4 "S2" "user_alice").sockets "S1" = mapGet sC4.sockets "S1" :=
  c4_register_upsert_lww.2.2 sC4 "S1" "S2" "user_alice" (by decide)

/-- C5: the authentication deadline is the fixed 30-second window; for any
trace with no authenticate call for socket `sid`: the socket id never
appears as a registry value (before or after the deadline fires), the
socket — if present — is still unauthenticated, and if it is still
connected when the pending deadline fires it ends up disconnected. -/
theorem c5_auth_deadline (tr : List Event) (sid : String)
    (htr : hasAuthFor sid tr = false) :
    authTimeoutMs = 30 * 1000 ∧
    (∀ p ∈ (run init tr).userSockets, p.2 ≠ sid) ∧
    (∀ sk, mapGet (run init tr).sockets sid = some sk → sk.userId = none) ∧
    (∀ sk, mapGet (run init tr).sockets sid = some sk → sk.connected = true →
      ∀ sk2, mapGet (onAuthTimeout (run init tr) sid).sockets sid = some sk2 →
        sk2.connected = false) ∧
    (∀ p ∈ (run init (tr ++ [Event.timeoutFire sid])).userSockets, p.2 ≠ sid) := by
  have hns := noSid_run sid tr init (noSid_init sid) htr
  refine ⟨rfl, hns.2, fun sk hm => (hns.1 sk hm).1, ?_, ?_⟩
  · intro sk hm hcon sk2 hm2
    have hu := (hns.1 sk hm).1
    have ht := (hns.1 sk hm).2 hcon
    rw [onAuthTimeout_fires_eq (run init tr) sid sk hm ht hu] at hm2
    rw [show ((({ run init tr with
        sockets := mapSet (run init tr).sockets sid ⟨none, sk.userType, sk.isAdmin, false, false⟩ }
        : ServerState).sockets) = mapSet (run init tr).sockets sid
          ⟨none, sk.userType, sk.isAdmin, false, false⟩) from rfl] at hm2
    rw [mapGet_set_self] at hm2
    cases hm2
    rfl
  · have htr2 : hasAuthFor sid (tr ++ [Event.timeoutFire sid]) = false := by
      rw [hasAuthFor_append, htr]
      rfl
    exact (noSid_run sid _ init (noSid_init sid) htr2).2

/-- C5 witness: a socket that connects and never authenticates is
disconnected when its deadline fires. -/
theorem c5_witness :
    (mapGet (onAuthTimeout (run init [Event.connect "S1"]) "S1").sockets "S1").map
      SocketState.connected = some false := by
  have h := (c5_auth_deadline [Event.connect "S1"] "S1" (by decide)).2.2.2.1
    freshSocket (by decide) rfl
  have hm : mapGet (onAuthTimeout (run init [Event.connect "S1"]) "S1").sockets "S1"
      = some ⟨none, "", false, false, false⟩ := by decide
  rw [hm]
  exact congrArg some (h _ hm)

/-- C6: the admin fan-out loops deliver to exactly the registry entries
whose identity classifies as admin: every admin-classified entry's handle
receives the events (both `/predict` events and the `/save-canvas` event),
and a user-classified entry is not a delivery target — any event reaching
its handle can only come from an admin-classified entry that stores the
same handle. -/
theorem c6_all_admins_fanout (reg : Registry) (uid sid : String)
    (hmem : (uid, sid) ∈ reg) :
    ((validateUserType uid).isAdmin = true →
      Emission.event sid "new-road-entry" ∈ predictAdminEmissions reg ∧
      Emission.event sid "admin-notification" ∈ predictAdminEmissions reg ∧
      Emission.event sid "prediction-complete" ∈ saveCanvasAdminEmissions reg ∧
      (uid, sid) ∈ allAdminsTargets reg) ∧
    ((validateUserType uid).valid = true → (validateUserType uid).isAdmin = false →
      ((uid, sid) ∉ allAdminsTargets reg ∧
       (∀ n, Emission.event sid n ∈ predictAdminEmissions reg →
          ∃ uid2, (uid2, sid) ∈ reg ∧ (validateUserType uid2).isAdmin = true) ∧
       (∀ n, Emission.event sid n ∈ saveCanvasAdminEmissions reg →
          ∃ uid2, (uid2, sid) ∈ reg ∧ (validateUserType uid2).isAdmin = true))) := by
  constructor
  · intro hA
    have hL := leadsWith_of_isAdmin uid hA
    obtain ⟨he1, he2⟩ := predict_mem_of_admin hmem hL
    exact ⟨he1, he2, saveCanvas_mem_of_admin hmem hL, targets_mem_iff.mpr ⟨hmem, hL⟩⟩
  · intro _hv hA
    have hL := not_leadsWith_of_user uid hA
    refine ⟨fun htgt => ?_, ?_, ?_⟩
    · have hcontra := (targets_mem_iff.mp htgt).2
      rw [hL] at hcontra
      exact absurd hcontra (by simp)
    · intro n hn
      obtain ⟨u2, hm2, hL2⟩ := predict_emission_source hn
      exact ⟨u2, hm2, (valid_isAdmin_of_leadsWith u2 hL2).2⟩
    · intro n hn
      obtain ⟨u2, hm2, hL2⟩ := saveCanvas_emission_source hn
      exact ⟨u2, hm2, (valid_isAdmin_of_leadsWith u2 hL2).2⟩

/-- C6 witness: in a registry holding one admin and one user, the admin's
handle receives `new-road-entry`. -/
theorem c6_witness :
    Emission.event "A" "new-road-entry" ∈ predictAdminEmissions regC6 :=
  ((c6_all_admins_fanout regC6 "admin_1" "A" (by decide)).1 (by decide)).1

/-- C7: the notification send paths never mutate the registry — both HTTP
trigger handlers return it unchanged for every input — and a send to a
specific identity that is not registered reports the not-connected outcome
(status 200 with the not-connected body) and emits nothing. -/
theorem c7_send_preserves_registry :
    (∀ (reg : Registry) (db : Bool) (userId ty : String),
      (userNotificationHandler reg db userId ty).registryAfter = reg) ∧
    (∀ (reg : Registry) (fb : Bool) (fu : Option String),
      (feedbackPatchHandler reg fb fu).registryAfter = reg) ∧
    (∀ (reg : Registry) (db : Bool) (userId ty : String),
      (userId.data == []) = false →
      (!leadsWith adminTag userId.data && isHex24 userId.data && !db) = false →
      mapGet reg userId = none →
      (userNotificationHandler reg db userId ty).status = 200 ∧
      (userNotificationHandler reg db userId ty).body
          = "User not connected, notification queued" ∧
      (userNotificationHandler reg db userId ty).emittedNow = [] ∧
      (userNotificationHandler reg db userId ty).registryAfter = reg) := by
  refine ⟨?_, ?_, ?_⟩
  · intro reg db userId ty
    unfold userNotificationHandler
    split
    · rfl
    · split
      · rfl
      · split <;> rfl
  · intro reg fb fu
    unfold feedbackPatchHandler
    split
    · rfl
    · split
      · split <;> rfl
      · rfl
  · intro reg db userId ty h0 h4 hm
    simp [userNotificationHandler, h0, h4, hm]

/-- C7 witness: notifying "user_y", who is not registered, reports the
not-connected body. -/
theorem c7_witness :
    (userNotificationHandler [("user_x", "S9")] true "user_y" "").body
      = "User not connected, notification queued" :=
  (c7_send_preserves_registry.2.2 [("user_x", "S9")] true "user_y" ""
    (by decide) (by decide) (by decide)).2.1

/-- C8: when the target identity has no live connection, both HTTP trigger
endpoints still answer 200 and the notification is silently dropped: no
emission happens and the server state (the registry — the handler's whole
effect is its returned outcome) is unchanged, with no queue or outbox of
any kind. -/
theorem c8_not_connected_dropped (reg : Registry) :
    (∀ (db : Bool) (userId ty : String),
      (userId.data == []) = false →
      (!leadsWith adminTag userId.data && isHex24 userId.data && !db) = false →
      mapGet reg userId = none →
      (userNotificationHandler reg db userId ty).status = 200 ∧
      (userNotificationHandler reg db userId ty).emittedNow = [] ∧
      (userNotificationHandler reg db userId ty).registryAfter = reg) ∧
    (∀ fuid : String, mapGet reg fuid = none →
      (feedbackPatchHandler reg true (some fuid)).status = 200 ∧
      (feedbackPatchHandler reg true (some fuid)).emittedNow = [] ∧
      (feedbackPatchHandler reg true (some fuid)).registryAfter = reg) := by
  constructor
  · intro db userId ty h0 h4 hm
    simp [userNotificationHandler, h0, h4, hm]
  · intro fuid hm
    simp [feedbackPatchHandler, hm]

/-- C8 witness: marking feedback of the unconnected author "user_z"
complete still returns 200. -/
theorem c8_witness :
    (feedbackPatchHandler [("user_x", "S9")] true (some "user_z")).status = 200 :=
  ((c8_not_connected_dropped [("user_x", "S9")]).2 "user_z" (by decide)).1

/-- C9: when a connected socket that already holds an identity receives the
transport's reconnect signal, the handler re-registers that identity under
the current socket id (so lookup returns this handle) and re-emits the
`auth_success` acknowledgment with the stored identity and role, without a
fresh authenticate call. -/
theorem c9_reconnect_reregisters (s : ServerState) (sid uid : String) (sk : SocketState)
    (hm : mapGet s.sockets sid = some sk) (hc : sk.connected = true)
    (hu : sk.userId = some uid) :
    (onReconnect s sid).userSockets = mapSet s.userSockets uid sid ∧
    mapGet (onReconnect s sid).userSockets uid = some sid ∧
    (onReconnect s sid).emitted = s.emitted ++ [Emission.authSuccess sid uid sk.userType] := by
  have he := onReconnect_eq s sid uid sk hm hc hu
  refine ⟨by rw [he], ?_, by rw [he]⟩
  rw [he]
  exact mapGet_set_self _ _ _

/-- C9 witness: socket S1, already authenticated as "user_bob", is
re-registered on reconnect. -/
theorem c9_witness :
    mapGet (onReconnect sC9 "S1").userSockets "user_bob" = some "S1" :=
  (c9_reconnect_reregisters sC9 "S1" "user_bob"
    ⟨some "user_bob", "user", false, true, false⟩ (by decide) rfl rfl).2.1

/-- C10: in every reachable state, every identity stored as a registry key
passes the classifier's validity check — authenticate registers only
validated identities, reconnect re-registers only a previously validated
one, and disconnect only removes entries. -/
theorem c10_registry_keys_validated (tr : List Event) :
    ∀ p ∈ (run init tr).userSockets, (validateUserType p.1).valid = true :=
  (inv_run tr init inv_init).1

/-- C10 witness: the entry created by authenticating "admin_1" has a valid
key. -/
theorem c10_witness : (validateUserType "admin_1").valid = true :=
  c10_registry_keys_validated trC10 ("admin_1", "S1") (by decide)

end SafeStreet
